import Mathlib

/-!
Shallow embedding of the diphone synthesizer (synth.py and simpleaudio.py).

Modelling conventions:
- Python ints are Nat / Int; numpy int16 samples are Int values, with two's
  complement wraparound applied explicitly where numpy casts to int16.
- Python floats are modelled as exact rationals.
- Functions that can raise an uncaught exception return Option; none marks
  the raising path (the source exits or propagates the exception there).
- Unbounded while loops are modelled with an explicit fuel argument that
  provably dominates the iteration count for the stated inputs.
-/

/-- A diphone: left and right phoneme; none denotes silence (rendered as
the token "pau" in filenames). -/
abbrev Diphone := Option String × Option String

/-- Embedding of Utterance.get_diphones (synth.py lines 71-87). The source
first builds the list with phones[0], which raises IndexError on an empty
phone sequence: that path is none. Otherwise it emits the initial
(None, phones[0]), then (phones[i], phones[i+1]) for i in
range(len(phones) - 1), then the final (phones[len(phones) - 1], None). -/
def get_diphones (phones : List String) : Option (List Diphone) :=
  match phones with
  | [] => none
  | p0 :: _ =>
      some (((none, some p0) ::
        (List.range (phones.length - 1)).map
          (fun i => (some (phones.getD i ("")), some (phones.getD (i + 1) ("")))))
        ++ [(some (phones.getD (phones.length - 1) ("")), none)])

/-- Embedding of Synth.get_filename (synth.py lines 116-122). -/
def get_filename (d : Diphone) : String :=
  (d.1.getD ("pau")) ++ "-" ++ (d.2.getD ("pau")) ++ ".wav"

/-- The source constant MAX_AMP = 2 ** 15 (simpleaudio.py line 10). -/
def MAX_AMP : ℤ := 2 ^ 15

/-- The pyaudio sample-format code paInt16 (= 8), the only format the
program uses. -/
def paInt16 : ℕ := 8

/-- Default channel count (simpleaudio.py CHANNELS = 1). -/
def CHANNELS : ℕ := 1

/-- Default chunk size in "bytes" units (simpleaudio.py BYTES = 256). -/
def BYTES : ℕ := 256

/-- Default sample rate of simpleaudio.Audio (simpleaudio.py RATE = 48000). -/
def RATE : ℕ := 48000

/-- The synthesizer output rate (synth.py RATE = 16000). -/
def SYNTH_RATE : ℕ := 16000

/-- Two's complement wraparound into the signed 16-bit range
[-32768, 32767], as numpy applies on casts to int16. -/
def wrap16 (n : ℤ) : ℤ := (n + 32768) % 65536 - 32768

/-- Truncation toward zero of a rational, matching numpy's float-to-int16
cast (the wraparound for out-of-range values is applied by wrap16). -/
def toInt16 (q : ℚ) : ℤ := wrap16 (Int.tdiv q.num q.den)

/-- Absolute value of an int16 sample as numpy computes it: the result is
itself an int16, so abs (-32768) overflows back to -32768. -/
def npAbs (s : ℤ) : ℤ := wrap16 |s|

/-- The peak that Audio.rescale computes (simpleaudio.py lines 208-211):
the running maximum of abs(data[i]) for i in range(len(data) - 1), i.e.
the FINAL SAMPLE IS SKIPPED by the source loop. -/
def codePeak (data : List ℤ) : ℤ :=
  ((List.range (data.length - 1)).map (fun i => npAbs (data.getD i 0))).foldl max 0

/-- Embedding of Audio.rescale (simpleaudio.py lines 199-217). The source
raises ValueError when val is outside [0, 1], and divides by zero
(ZeroDivisionError) when the computed peak is 0 - there is no zero-peak
guard; both raising paths are none. Otherwise every sample is multiplied
by rescale_factor = val * MAX_AMP / peak and cast back to int16. -/
def rescale (val : ℚ) (data : List ℤ) : Option (List ℤ) :=
  if ¬ (0 ≤ val ∧ val ≤ 1) then none
  else if codePeak data = 0 then none
  else
    some (data.map (fun s : ℤ =>
      toInt16 ((s : ℚ) * (val * (MAX_AMP : ℚ) / ((codePeak data : ℤ) : ℚ)))))

/-- Embedding of the fields of simpleaudio.Audio. The stream handles and
the numpy element type carry no sample content and are omitted; nptype is
determined by format (int16 for paInt16). -/
structure Audio where
  channels : ℕ
  rate : ℕ
  format : ℕ
  data : List ℤ
  bytes : ℕ
  count : ℕ
deriving DecidableEq

/-- The Audio constructor applied as Audio(rate=rate) in Synth.get_audio:
all other parameters keep their defaults. -/
def mkAudio (rate : ℕ) : Audio :=
  { channels := CHANNELS, rate := rate, format := paInt16, data := [],
    bytes := BYTES, count := 0 }

/-- A WAV file as the wave module exposes it: header fields plus the flat
list of 16-bit samples in the data chunk. -/
structure WavFile where
  nchannels : ℕ
  sampwidth : ℕ
  framerate : ℕ
  payload : List ℤ
deriving DecidableEq

/-- Embedding of Audio.save (simpleaudio.py lines 137-157): the header is
filled from the object's channels, get_sample_size(format) and rate, and
the payload is the raw sample data. pyaudio.get_sample_size is 2 for
paInt16 and raises for format codes the program never produces (none). -/
def save (a : Audio) : Option WavFile :=
  if a.format = paInt16 then
    some { nchannels := a.channels, sampwidth := 2, framerate := a.rate,
           payload := a.data }
  else none

/-- The read loop of Audio.load: each iteration calls
wave.readframes(bytes), which returns min(bytes, framesLeft) frames, i.e.
that many frames times nchannels samples, and the loop stops on the empty
read. The fuel argument bounds the iteration count; the caller passes
fuel that dominates it (each productive iteration consumes at least one
frame when chunk is positive; a zero chunk reads nothing and stops). -/
def load_loop (chunk nch : ℕ) : ℕ → ℕ → List ℤ → List ℤ
  | 0, _, _ => []
  | fuel + 1, framesLeft, payload =>
      if chunk = 0 ∨ framesLeft = 0 then []
      else
        payload.take (min chunk framesLeft * nch) ++
          load_loop chunk nch fuel (framesLeft - min chunk framesLeft)
            (payload.drop (min chunk framesLeft * nch))

/-- Embedding of Audio.load (simpleaudio.py lines 159-190), reading the
WavFile w into the object a. The wave module computes the frame count as
data-chunk bytes divided by the frame size sampwidth * nchannels (a
trailing partial frame is dropped); a file with zero channels makes wave
raise, and a non-16-bit sample width makes get_np_type return None so the
subsequent numpy.fromstring call fails - both are none. -/
def load (a : Audio) (w : WavFile) : Option Audio :=
  if w.sampwidth = 2 ∧ 0 < w.nchannels then
    some { a with
      format := paInt16
      channels := w.nchannels
      rate := w.framerate
      data := load_loop a.bytes w.nchannels
        ((2 * w.payload.length) / (2 * w.nchannels) + 1)
        ((2 * w.payload.length) / (2 * w.nchannels)) w.payload }
  else none

/-- Embedding of the cache construction in Synth.init (synth.py lines
100-114). store models the diphone directory: none means the file is
missing, on which the source exits (none overall). The cache is an
association list in insertion order, and the returned list of filenames
records every load actually performed, in order. -/
def synth_init (store : String → Option Audio) :
    List Diphone → List (String × Audio) → List String →
    Option (List (String × Audio) × List String)
  | [], cache, events => some (cache, events)
  | d :: ds, cache, events =>
      if (cache.lookup (get_filename d)).isSome then
        synth_init store ds cache events
      else
        match store (get_filename d) with
        | none => none
        | some au =>
            synth_init store ds (cache ++ [(get_filename d, au)])
              (events ++ [get_filename d])

/-- The ordered concatenation that numpy.concatenate performs on the list
of 1-D sample arrays in Synth.get_audio. -/
def concatBuffers (bufs : List (List ℤ)) : List ℤ := bufs.flatten

/-- Embedding of Synth.get_audio (synth.py lines 124-143). audio is the
cache lookup, total because Synth.init has populated every filename the
diphone list needs. numpy.concatenate raises ValueError on an empty list
of arrays (none), and rescale(1.0) may raise (none); otherwise the output
object is Audio(rate=rate) carrying the rescaled concatenation. -/
def get_audio (audio : String → Audio) (diphones : List Diphone) (rate : ℕ) :
    Option Audio :=
  if diphones = [] then none
  else
    match rescale 1 (concatBuffers
        (diphones.map (fun d => (audio (get_filename d)).data))) with
    | none => none
    | some d => some { mkAudio rate with data := d }

/-- The playback loop of Audio.play: each iteration is one put_bytes call
(simpleaudio.py lines 55-71). With slice_from = count * bytes and
slice_to = slice_from + bytes - 1, put_bytes raises IndexError when
slice_to > len(data) - which play catches to end the loop - and otherwise
writes the Python slice data[slice_from : slice_to] (whose right endpoint
is excluded, so the chunk holds bytes - 1 samples) and increments count.
The fuel dominates the iteration count for bytes at least 1; for
bytes = 0 the source loop would never terminate. -/
def play_loop (b : ℕ) (data : List ℤ) : ℕ → ℕ → List (List ℤ)
  | 0, _ => []
  | fuel + 1, count =>
      if data.length < count * b + b - 1 then []
      else ((data.drop (count * b)).take (count * b + b - 1 - count * b)) ::
        play_loop b data fuel (count + 1)

/-- Embedding of Audio.open_output_stream (simpleaudio.py lines 94-108):
of the modelled fields, it only resets the chunk counter to zero. -/
def open_output_stream (a : Audio) : Audio := { a with count := 0 }

/-- Embedding of Audio.play (simpleaudio.py lines 117-135): open the
output stream (resetting count to 0), run put_bytes until its IndexError
ends the loop, close the stream. Returns the final object together with
the chunks written to the output stream, in order. -/
def play (a : Audio) : Audio × List (List ℤ) :=
  let a1 := open_output_stream a
  let chunks := play_loop a1.bytes a1.data (a1.data.length + 2) a1.count
  ({ a1 with count := a1.count + chunks.length }, chunks)

/-- A concrete diphone directory for witnesses: every file present, each
holding the two samples 1 and 0. -/
def storeW : String → Option Audio :=
  fun _ => some { channels := 1, rate := SYNTH_RATE, format := paInt16,
                  data := [1, 0], bytes := BYTES, count := 0 }

/-- A concrete populated cache for witnesses: every filename resolves to
a mono buffer with samples 1, 2, 3. -/
def audioW : String → Audio :=
  fun _ => { channels := 1, rate := SYNTH_RATE, format := paInt16,
             data := [1, 2, 3], bytes := BYTES, count := 0 }

/-- A populated cache whose buffers disagree on channel count: the buffer
for "a-b.wav" is stereo, every other one mono. -/
def storeMismatch : String → Audio :=
  fun f =>
    if f = "a-b.wav" then
      { channels := 2, rate := SYNTH_RATE, format := paInt16,
        data := [1, 2], bytes := BYTES, count := 0 }
    else
      { channels := 1, rate := SYNTH_RATE, format := paInt16,
        data := [3, 4], bytes := BYTES, count := 0 }

/-- A concrete Audio object for the playback frame witness: bytes = 2 and
a nonzero chunk counter left over from earlier activity. -/
def audPlay : Audio :=
  { channels := 1, rate := RATE, format := paInt16, data := [5, 6, 7],
    bytes := 2, count := 9 }

/-- Evaluation helper: toInt16 on an integer-valued rational is plain
wraparound. -/
theorem toInt16_intCast (n : ℤ) : toInt16 ((n : ℚ)) = wrap16 n := by
  simp [toInt16, Rat.num_intCast, Rat.den_intCast, Int.tdiv_one]

/-- Evaluation helper: rescale with factor 1 on a buffer whose computed
peak is nonzero takes the scaling branch. -/
theorem rescale_one_eq (l : List ℤ) (h : ¬ codePeak l = 0) :
    rescale 1 l = some (l.map (fun s : ℤ =>
      toInt16 ((s : ℚ) * (1 * (MAX_AMP : ℚ) / ((codePeak l : ℤ) : ℚ))))) := by
  rw [rescale, if_neg (by norm_num), if_neg h]

/-- Helper: rescale with factor 1 fails exactly when the computed peak is
zero (the division by zero). -/
theorem rescale_one_none_iff (l : List ℤ) :
    rescale 1 l = none ↔ codePeak l = 0 := by
  rw [rescale, if_neg (by norm_num)]
  by_cases hp : codePeak l = 0
  · simp [hp]
  · simp [hp]

/-- Helper: a successful rescale preserves the buffer length. -/
theorem rescale_some_length (v : ℚ) (l l2 : List ℤ)
    (h : rescale v l = some l2) : l2.length = l.length := by
  rw [rescale] at h
  split at h
  · exact absurd h (by simp)
  · split at h
    · exact absurd h (by simp)
    · rw [Option.some.injEq] at h
      rw [← h, List.length_map]

/-- C4: applied to the empty phoneme sequence, get_diphones does not
return the single diphone (silence, silence) the spec promises: it fails,
because the source evaluates phones[0] and raises IndexError. -/
theorem get_diphones_empty_fails : get_diphones [] = none := rfl

/-- C2: the peak loop of rescale ranges over range(len(data) - 1) and so
skips the last sample: on the buffer [1, 2] with factor 1 the computed
peak is 1 rather than 2, and the rescaled output [-32768, 0] overflows
the signed 16-bit range, its maximum absolute value 32768 exceeding
factor * 32767. -/
theorem rescale_peak_skips_last_sample :
    codePeak [1, 2] = 1 ∧ rescale 1 [1, 2] = some [-32768, 0] ∧
      ¬ (|(-32768 : ℤ)| ≤ 1 * 32767) := by
  refine ⟨by decide, ?_, by decide⟩
  rw [rescale_one_eq [1, 2] (by decide)]
  have hp : codePeak [1, 2] = 1 := by decide
  rw [hp]
  have h1 : (((1 : ℤ) : ℚ)) * (1 * (MAX_AMP : ℚ) / (((1 : ℤ) : ℚ))) =
      ((32768 : ℤ) : ℚ) := by norm_num [MAX_AMP]
  have h2 : (((2 : ℤ) : ℚ)) * (1 * (MAX_AMP : ℚ) / (((1 : ℤ) : ℚ))) =
      ((65536 : ℤ) : ℚ) := by norm_num [MAX_AMP]
  simp only [List.map_cons, List.map_nil, h1, h2, toInt16_intCast]
  decide

/-- C3: rescale has no zero-peak guard: on the all-zero buffer [0, 0]
(and likewise on the empty buffer) the source divides by zero and raises
ZeroDivisionError instead of leaving the buffer unchanged. -/
theorem rescale_zero_peak_fails :
    rescale 1 [0, 0] = none ∧ rescale 1 ([] : List ℤ) = none :=
  ⟨(rescale_one_none_iff [0, 0]).mpr (by decide),
   (rescale_one_none_iff []).mpr (by decide)⟩

/-- C7: the playback loop does terminate by catching the IndexError
locally, but each put_bytes call writes the Python slice
data[count * bytes : count * bytes + bytes - 1], a chunk of bytes - 1
samples: with bytes = 2 and data [10, 20, 30, 40] the chunks written are
[10] and [30], so the samples 20 and 40 are never written and the chunks
do not exhaust the buffer. -/
theorem play_drops_samples :
    (play { channels := 1, rate := SYNTH_RATE, format := paInt16,
            data := [10, 20, 30, 40], bytes := 2, count := 7 }).2 =
        [[10], [30]] ∧
      concatBuffers [[10], [30]] ≠ [10, 20, 30, 40] := by decide

/-- C1: for a nonempty phoneme sequence of length n, get_diphones succeeds
and returns exactly n + 1 diphones, pinned position by position:
(silence, phones[0]) first, then (phones[i], phones[i+1]) at position
i + 1 for every i in [0, n-2], then (phones[n-1], silence) last. Every
position is determined, so no deduplication is performed. -/
theorem get_diphones_windowing (phones : List String) (h : phones ≠ []) :
    ∃ ds, get_diphones phones = some ds ∧
      ds.length = phones.length + 1 ∧
      ds[0]? = some (none, some (phones.getD 0 (""))) ∧
      (∀ i, i < phones.length - 1 →
        ds[i + 1]? =
          some (some (phones.getD i ("")), some (phones.getD (i + 1) ("")))) ∧
      ds[phones.length]? =
        some (some (phones.getD (phones.length - 1) ("")), none) := by
  cases phones with
  | nil => exact absurd rfl h
  | cons p0 rest =>
    refine ⟨_, rfl, ?_, ?_, ?_, ?_⟩
    · simp
    · simp
    · intro i hi
      have hi2 : i < rest.length := by simpa using hi
      simp only [List.length_cons, Nat.add_sub_cancel]
      rw [List.cons_append, List.getElem?_cons_succ,
        List.getElem?_append_left (by simpa using hi2), List.getElem?_map,
        List.getElem?_range hi2]
      rfl
    · simp only [List.length_cons, Nat.add_sub_cancel]
      rw [List.cons_append, List.getElem?_cons_succ,
        List.getElem?_append_right (by simp)]
      simp

/-- Witness for C1 at the phoneme sequence of the word cat. -/
theorem get_diphones_windowing_witness :
    ∃ ds, get_diphones ["k", "ae", "t"] = some ds ∧
      ds.length = (["k", "ae", "t"] : List String).length + 1 ∧
      ds[0]? = some (none, some ((["k", "ae", "t"] : List String).getD 0 (""))) ∧
      (∀ i, i < (["k", "ae", "t"] : List String).length - 1 →
        ds[i + 1]? =
          some (some ((["k", "ae", "t"] : List String).getD i ("")),
            some ((["k", "ae", "t"] : List String).getD (i + 1) ("")))) ∧
      ds[(["k", "ae", "t"] : List String).length]? =
        some (some ((["k", "ae", "t"] : List String).getD
          ((["k", "ae", "t"] : List String).length - 1) ("")), none) :=
  get_diphones_windowing ["k", "ae", "t"] (by decide)

/-- Helper: with a positive chunk and enough fuel, the read loop returns
exactly the first framesLeft * nch samples of the payload. -/
theorem load_loop_take (chunk nch : ℕ) (hchunk : 1 ≤ chunk) :
    ∀ (fuel framesLeft : ℕ) (payload : List ℤ), framesLeft ≤ fuel →
      load_loop chunk nch fuel framesLeft payload =
        payload.take (framesLeft * nch) := by
  intro fuel
  induction fuel with
  | zero =>
      intro framesLeft payload hle
      have h0 : framesLeft = 0 := Nat.le_zero.mp hle
      subst h0
      simp [load_loop]
  | succ fuel ih =>
      intro framesLeft payload hle
      by_cases h0 : framesLeft = 0
      · subst h0
        simp [load_loop]
      · have hcond : ¬ (chunk = 0 ∨ framesLeft = 0) := by
          rintro (hc | hf)
          · omega
          · exact h0 hf
        rw [load_loop, if_neg hcond,
          ih (framesLeft - min chunk framesLeft)
            (payload.drop (min chunk framesLeft * nch)) (by omega)]
        have hsplit : framesLeft * nch =
            min chunk framesLeft * nch +
              (framesLeft - min chunk framesLeft) * nch := by
          rw [← Nat.add_mul]
          congr 1
          omega
        rw [hsplit, List.take_add]

/-- C5: WAV round trip: for a buffer in 16-bit format with at least one
channel and a whole number of frames, loading (with any object whose read
chunk is positive) the file that save wrote reproduces the channel count,
the sample rate and the samples exactly. -/
theorem save_load_roundtrip (a b : Audio) (hfmt : a.format = paInt16)
    (hch : 0 < a.channels) (hdvd : a.channels ∣ a.data.length)
    (hb : 1 ≤ b.bytes) :
    ∃ w a2, save a = some w ∧ load b w = some a2 ∧
      a2.channels = a.channels ∧ a2.rate = a.rate ∧ a2.data = a.data := by
  obtain ⟨k, hk⟩ := hdvd
  have hnf : (2 * a.data.length) / (2 * a.channels) = k := by
    rw [hk, ← Nat.mul_assoc]
    exact Nat.mul_div_cancel_left k (by omega)
  have hdata : load_loop b.bytes a.channels
      ((2 * a.data.length) / (2 * a.channels) + 1)
      ((2 * a.data.length) / (2 * a.channels)) a.data = a.data := by
    rw [hnf, load_loop_take b.bytes a.channels hb (k + 1) k a.data (by omega),
      Nat.mul_comm, ← hk, List.take_length]
  refine ⟨WavFile.mk a.channels 2 a.rate a.data,
    Audio.mk a.channels a.rate paInt16 a.data b.bytes b.count, ?_, ?_, rfl, rfl, rfl⟩
  · rw [save, if_pos hfmt]
  · rw [load, if_pos ⟨rfl, hch⟩]
    dsimp only
    rw [hdata]

/-- Witness for C5 at a concrete mono 16-bit buffer. -/
theorem save_load_roundtrip_witness :
    ∃ w a2,
      save { channels := 1, rate := 16000, format := paInt16,
             data := [3, -5], bytes := 256, count := 0 } = some w ∧
      load { channels := 1, rate := 48000, format := paInt16, data := [],
             bytes := 256, count := 0 } w = some a2 ∧
      a2.channels = 1 ∧ a2.rate = 16000 ∧ a2.data = [3, -5] :=
  save_load_roundtrip
    { channels := 1, rate := 16000, format := paInt16, data := [3, -5],
      bytes := 256, count := 0 }
    { channels := 1, rate := 48000, format := paInt16, data := [],
      bytes := 256, count := 0 }
    rfl (by decide) (by decide) (by decide)

/-- Helper: a lookup that succeeds in a cache still succeeds after the
cache grows on the right. -/
theorem lookup_append_isSome (f : String) (l1 l2 : List (String × Audio))
    (h : (l1.lookup f).isSome) : ((l1 ++ l2).lookup f).isSome := by
  induction l1 with
  | nil => simp [List.lookup] at h
  | cons p l ih =>
      obtain ⟨key, v⟩ := p
      by_cases hk : f == key
      · simp [List.lookup, hk]
      · simp only [List.lookup, hk] at h
        simp only [List.cons_append, List.lookup, hk]
        exact ih h

/-- Helper: after appending the pair (f, au), looking up f succeeds. -/
theorem lookup_concat_self_isSome (f : String) (au : Audio)
    (l1 : List (String × Audio)) : ((l1 ++ [(f, au)]).lookup f).isSome := by
  induction l1 with
  | nil => simp [List.lookup]
  | cons p l ih =>
      obtain ⟨key, v⟩ := p
      by_cases hk : f == key
      · simp [List.lookup, hk]
      · simp only [List.cons_append, List.lookup, hk]
        exact ih

/-- Helper invariant for synth_init: if the filenames loaded so far are
distinct and each of them is already a cache key, the final load list is
distinct too. -/
theorem synth_init_nodup_aux (store : String → Option Audio) :
    ∀ (ds : List Diphone) (cache : List (String × Audio))
      (events : List String) (c2 : List (String × Audio)) (e2 : List String),
      synth_init store ds cache events = some (c2, e2) →
      events.Nodup → (∀ f ∈ events, (cache.lookup f).isSome) →
      e2.Nodup := by
  intro ds
  induction ds with
  | nil =>
      intro cache events c2 e2 h hnd hinv
      simp only [synth_init, Option.some.injEq, Prod.mk.injEq] at h
      rw [← h.2]
      exact hnd
  | cons d ds ih =>
      intro cache events c2 e2 h hnd hinv
      rw [synth_init] at h
      by_cases hc : (cache.lookup (get_filename d)).isSome
      · rw [if_pos hc] at h
        exact ih cache events c2 e2 h hnd hinv
      · rw [if_neg hc] at h
        cases hs : store (get_filename d) with
        | none => rw [hs] at h; cases h
        | some au =>
            rw [hs] at h
            refine ih _ _ c2 e2 h ?_ ?_
            · have hnotin : get_filename d ∉ events := fun hmem => hc (hinv _ hmem)
              simp [List.nodup_append, hnd, hnotin]
            · intro f hf
              rcases List.mem_append.mp hf with hf1 | hf2
              · exact lookup_append_isSome f cache _ (hinv f hf1)
              · have hfe : f = get_filename d := by simpa using hf2
                rw [hfe]
                exact lookup_concat_self_isSome (get_filename d) au cache

/-- C6: building the Synth cache loads each distinct asset filename at
most once: on success the recorded list of performed loads has no
duplicate filename, so a diphone whose filename was already resolved hits
the cache and issues no further load. -/
theorem synth_init_loads_once (store : String → Option Audio)
    (ds : List Diphone) (cache : List (String × Audio))
    (events : List String)
    (h : synth_init store ds [] [] = some (cache, events)) :
    events.Nodup ∧ ∀ f : String, events.count f ≤ 1 := by
  have hnd : events.Nodup :=
    synth_init_nodup_aux store ds [] [] cache events h List.nodup_nil
      (fun f hf => absurd hf (List.not_mem_nil f))
  exact ⟨hnd, List.nodup_iff_count_le_one.mp hnd⟩

/-- Witness for C6: a diphone sequence repeating the same diphone loads
its file once. -/
theorem synth_init_loads_once_witness :
    (["a-b.wav"] : List String).Nodup ∧
      ∀ f : String, (["a-b.wav"] : List String).count f ≤ 1 :=
  synth_init_loads_once storeW
    [(some ("a"), some ("b")), (some ("a"), some ("b"))]
    [("a-b.wav", Audio.mk 1 SYNTH_RATE paInt16 [1, 0] BYTES 0)]
    ["a-b.wav"] (by decide)

/-- C8: concatenation preserves total length: concat of a pair has the
sum of the lengths, and whenever get_audio succeeds its output buffer
length is the sum of the resolved source buffers' lengths (rescale maps
samples pointwise, so it cannot change the length). -/
theorem get_audio_length (audio : String → Audio) (ds : List Diphone)
    (rate : ℕ) (out : Audio) (h : get_audio audio ds rate = some out) :
    out.data.length =
        (ds.map (fun d => (audio (get_filename d)).data.length)).sum ∧
      ∀ a b : List ℤ, (concatBuffers [a, b]).length = a.length + b.length := by
  refine ⟨?_, fun a b => by simp [concatBuffers]⟩
  rw [get_audio] at h
  by_cases hds : ds = []
  · rw [if_pos hds] at h
    cases h
  · rw [if_neg hds] at h
    rcases hr : rescale 1 (concatBuffers
        (ds.map (fun d => (audio (get_filename d)).data))) with _ | dd
    · rw [hr] at h
      cases h
    · rw [hr] at h
      have hlen := rescale_some_length 1 _ dd hr
      rw [Option.some.injEq] at h
      rw [← h]
      show dd.length = _
      rw [hlen]
      simp only [concatBuffers, List.length_flatten, List.map_map]
      rfl

/-- Shared evaluation: get_audio on the constant cache audioW and one
diphone; the concatenation is [1, 2, 3], the computed peak is 2 and the
normalized samples are [16384, -32768, -16384]. -/
theorem get_audio_audioW_eq :
    get_audio audioW [(some ("a"), some ("b"))] 16000 =
      some (Audio.mk 1 16000 paInt16 [16384, -32768, -16384] 256 0) := by
  rw [get_audio, if_neg (by decide)]
  have hc : concatBuffers
      ([(some ("a"), some ("b"))].map
        (fun d => (audioW (get_filename d)).data)) = [1, 2, 3] := rfl
  rw [hc, rescale_one_eq [1, 2, 3] (by decide)]
  have hp : codePeak [1, 2, 3] = 2 := by decide
  rw [hp]
  have h1 : (((1 : ℤ) : ℚ)) * (1 * (MAX_AMP : ℚ) / (((2 : ℤ) : ℚ))) =
      ((16384 : ℤ) : ℚ) := by norm_num [MAX_AMP]
  have h2 : (((2 : ℤ) : ℚ)) * (1 * (MAX_AMP : ℚ) / (((2 : ℤ) : ℚ))) =
      ((32768 : ℤ) : ℚ) := by norm_num [MAX_AMP]
  have h3 : (((3 : ℤ) : ℚ)) * (1 * (MAX_AMP : ℚ) / (((2 : ℤ) : ℚ))) =
      ((49152 : ℤ) : ℚ) := by norm_num [MAX_AMP]
  simp only [List.map_cons, List.map_nil, h1, h2, h3, toInt16_intCast]
  decide

/-- Witness for C8 at the cache audioW and one diphone. -/
theorem get_audio_length_witness :
    (Audio.mk 1 16000 paInt16 [16384, -32768, -16384] 256 0).data.length =
        (([(some ("a"), some ("b"))] : List Diphone).map
          (fun d => (audioW (get_filename d)).data.length)).sum ∧
      ∀ a b : List ℤ, (concatBuffers [a, b]).length = a.length + b.length :=
  get_audio_length audioW [(some ("a"), some ("b"))] 16000
    (Audio.mk 1 16000 paInt16 [16384, -32768, -16384] 256 0)
    get_audio_audioW_eq

/-- C9 counterexample: the cached buffers for the two diphones disagree
on channel count, yet get_audio succeeds: the source never compares
channel counts or sample widths, so no FormatMismatch failure exists. -/
theorem get_audio_ignores_format_mismatch :
    (storeMismatch ("a-b.wav")).channels ≠
        (storeMismatch ("c-d.wav")).channels ∧
      (get_audio storeMismatch
        [(some ("a"), some ("b")), (some ("c"), some ("d"))] 16000).isSome =
        true := by
  refine ⟨by decide, ?_⟩
  rw [get_audio, if_neg (by decide)]
  have hc : concatBuffers
      ([(some ("a"), some ("b")), (some ("c"), some ("d"))].map
        (fun d => (storeMismatch (get_filename d)).data)) = [1, 2, 3, 4] := by
    decide
  rw [hc, rescale_one_eq [1, 2, 3, 4] (by decide)]
  rfl

/-- C9 amended: get_audio performs no format check at all: for every
cache contents and nonempty diphone list, success depends only on the
concatenated sample data (it fails exactly when the rescale peak is
zero), regardless of the buffers' channel counts or sample widths. -/
theorem get_audio_no_format_check (audio : String → Audio)
    (ds : List Diphone) (rate : ℕ) (hds : ds ≠ []) :
    ((get_audio audio ds rate).isSome ↔
      codePeak (concatBuffers
        (ds.map (fun d => (audio (get_filename d)).data))) ≠ 0) := by
  rw [get_audio, if_neg hds]
  rcases hr : rescale 1 (concatBuffers
      (ds.map (fun d => (audio (get_filename d)).data))) with _ | dd
  · have hp := (rescale_one_none_iff _).mp hr
    simp [hp]
  · have hp : codePeak (concatBuffers
        (ds.map (fun d => (audio (get_filename d)).data))) ≠ 0 := by
      intro h0
      have hn := (rescale_one_none_iff _).mpr h0
      rw [hr] at hn
      cases hn
    simp [hp]

/-- Witness for the amended C9 at the cache audioW and one diphone. -/
theorem get_audio_no_format_check_witness :
    ((get_audio audioW [(some ("a"), some ("b"))] 16000).isSome ↔
      codePeak (concatBuffers
        (([(some ("a"), some ("b"))] : List Diphone).map
          (fun d => (audioW (get_filename d)).data))) ≠ 0) :=
  get_audio_no_format_check audioW [(some ("a"), some ("b"))] 16000
    (by decide)

/-- C10: playback leaves data, channels, rate and format untouched; only
the chunk counter changes, and because open_output_stream resets it to
zero the written chunks always start from the beginning of the buffer,
whatever the counter held before (stated for positive bytes, since the
source loop does not terminate for bytes = 0). -/
theorem play_preserves_buffer (a : Audio) (hb : 1 ≤ a.bytes) :
    (play a).1.data = a.data ∧ (play a).1.channels = a.channels ∧
      (play a).1.rate = a.rate ∧ (play a).1.format = a.format ∧
      (play a).2 = play_loop a.bytes a.data (a.data.length + 2) 0 :=
  ⟨rfl, rfl, rfl, rfl, rfl⟩

/-- Witness for C10 at a buffer whose stale chunk counter is 9. -/
theorem play_preserves_buffer_witness :
    (play audPlay).1.data = audPlay.data ∧
      (play audPlay).1.channels = audPlay.channels ∧
      (play audPlay).1.rate = audPlay.rate ∧
      (play audPlay).1.format = audPlay.format ∧
      (play audPlay).2 = play_loop audPlay.bytes audPlay.data
        (audPlay.data.length + 2) 0 :=
  play_preserves_buffer audPlay (by decide)
